import Mathlib

/-!
Verification of the connection/session layer of `mopidy_json_client`
(`src/mopidy_json_client/client.py`, class `SimpleClient`), as a shallow
embedding.  The mutable instance attributes that the client methods read and
write become fields of `ClientState`; each Python method becomes a Lean
function from the state to a new state together with the list of observable
side effects it performs (log calls, websocket operations, handler
invocations).  The websocket library, the peer and the missing `messages`
module are the environment: their outcomes (send success, parse outcome,
value returned by a blocking wait) enter as explicit parameters.
-/

/-- Opaque payload values (JSON results, error payloads, event data).  Their
internal structure never matters to the client logic, so they are kept as
strings. -/
abbrev Value := String

/-- One entry of `request_queue`: a `RequestMessage` as far as `client.py`
observes it — its `id_msg` and the method it was created for.  The
`RequestMessage` class itself lives in the missing `messages` module;
per the spec its identifier is a caller-unique integer, monotonically
assigned per client session. -/
structure Request where
  id_msg : Nat
  method : String
deriving DecidableEq, Repr

/-- Observable side effects of the client methods, in program order:
logger calls, websocket-app operations, and invocations of the
user-registered handlers. -/
inductive Effect where
  | logDebug (msg : String)
  | logInfo (msg : String)
  | logWarning (msg : String)
  | logException (msg : String)
  | wsConnect (url : String)
  | wsaClose
  | sleep (secs : Nat)
  | sendFrame (method : String) (id_msg : Nat)
  | connHandler (connected : Bool)
  | errorHandler (error : Value)
  | eventHandler (event : String)
  | callback (id_msg : Nat) (result : Value)
deriving DecidableEq, Repr

/-- `True` exactly on `_ws_connect` effects (a new transport connection and
receive thread being created). -/
def Effect.isWsConnect : Effect → Bool
  | .wsConnect _ => true
  | _ => false

/-- `True` exactly on invocations of the registered connection-status
handler. -/
def Effect.isConnHandler : Effect → Bool
  | .connHandler _ => true
  | _ => false

/-- `True` exactly on `time.sleep` effects (the delay before a retry). -/
def Effect.isSleep : Effect → Bool
  | .sleep _ => true
  | _ => false

/-- `True` exactly on `request.callback(result)` effects (a pending call
being resolved with an outcome). -/
def Effect.isCallback : Effect → Bool
  | .callback _ _ => true
  | _ => false

/-- The mutable state of one `SimpleClient`, as read and written by its
methods.

Note on `request_queue`: in the source it is declared as a class attribute
(`request_queue = []`, client.py line 18) and only ever mutated in place
(`append` at line 181, `remove` at line 209), never rebound on `self`; in
Python this makes it a single list shared by all instances.  For the
single-instance claims the shared list and a per-instance field are
observationally identical, so it is carried here as a field; the sharing
itself is modelled separately (`TwoClients`).

The handler fields record whether the corresponding optional user handler
was supplied to the constructor (`None` tests in the source become Bool
tests here).  `next_id` is modelled from the spec: the identifier counter
of the missing `RequestMessage` class, monotonically assigned. -/
structure ClientState where
  request_queue : List Request
  connected : Bool
  ws_url : String
  retry_max : Int
  retry_secs : Nat
  retry_attemp : Option Int
  connection_handler : Bool
  error_handler : Bool
  event_handler : Bool
  next_id : Nat
deriving DecidableEq, Repr

/-- `SimpleClient.is_connected` (client.py lines 105-107): reads
`self.connected` under `conn_lock`. -/
def is_connected (s : ClientState) : Bool := s.connected

/-- `SimpleClient._connection_changed` (lines 165-174): sets
`self.connected`, notifies the condition, and if a connection handler is
registered starts a thread invoking it with the new flag. -/
def connection_changed (s : ClientState) (c : Bool) : ClientState × List Effect :=
  let s' := { s with connected := c }
  (s', if s'.connection_handler then [Effect.connHandler c] else [])

/-- `SimpleClient._ws_open` (lines 153-155): logs and reports
connected = True.  It does not touch `retry_attemp`. -/
def ws_open (s : ClientState) : ClientState × List Effect :=
  let (s', eff) := connection_changed s true
  (s', Effect.logInfo "[CONNECTION] Mopidy Server is connected" :: eff)

/-- `SimpleClient._ws_retry` (lines 127-148).  Called only from `_ws_close`
under the guard `self.retry_attemp is not None`; the `getD 0` read of the
counter is therefore never taken on `none` by any caller in this file. -/
def ws_retry (s : ClientState) : ClientState × List Effect :=
  if s.retry_max < 0 then
    (s, [Effect.sleep s.retry_secs,
         Effect.logDebug "[CONNECTION] Reconnecting to Mopidy Sever",
         Effect.wsConnect s.ws_url])
  else if s.retry_attemp.getD 0 < s.retry_max then
    let a := s.retry_attemp.getD 0 + 1
    ({ s with retry_attemp := some a },
     [Effect.sleep s.retry_secs,
      Effect.logDebug "[CONNECTION] Reconnecting to Mopidy Sever. Attemp",
      Effect.wsConnect s.ws_url])
  else
    (s, [Effect.logWarning "[CONNECTION] Reached maximum of attemps to reconnect"])

/-- `SimpleClient._ws_close` (lines 157-163): if currently connected, log
and report connected = False; then, if `retry_attemp` is not None, run the
retry logic.  Nothing here reads or writes `request_queue`. -/
def ws_close (s : ClientState) : ClientState × List Effect :=
  let (s1, eff1) :=
    if is_connected s then
      let (s', eff) := connection_changed s false
      (s', Effect.logInfo "[CONNECTION] Mopidy Sever is disconnected" :: eff)
    else (s, [])
  match s1.retry_attemp with
  | none => (s1, eff1)
  | some _ =>
    let (s2, eff2) := ws_retry s1
    (s2, eff1 ++ eff2)

/-- `SimpleClient.disconnect` (lines 97-103): unconditionally clears
`retry_attemp`, then either warns (already disconnected) or closes the
websocket; the transport close event later drives `_ws_close`. -/
def disconnect (s : ClientState) : ClientState × List Effect :=
  let s' := { s with retry_attemp := none }
  if is_connected s' = false then
    (s', [Effect.logWarning "[CONNECTION] Already disconnected to Mopidy Server"])
  else
    (s', [Effect.wsaClose])

/-- `SimpleClient.connect` (lines 69-95).  `opened_during_wait` is the
environment: whether the parallel websocket thread managed to open the
connection before the bounded wait on `conn_lock` returned; it is the
value `self.is_connected()` reads at that point and is consulted only in
the waiting branch.  The result is `some b` when the method returns a
boolean and `none` for its bare `return None`. -/
def connect (s : ClientState) (url : Option String) (wait_secs : Nat)
    (opened_during_wait : Bool) : ClientState × List Effect × Option Bool :=
  if is_connected s then
    (s, [Effect.logWarning "[CONNECTION] Already connected to Mopidy Server"], some true)
  else
    let s1 := match url with
      | some u => { s with ws_url := u }
      | none => s
    let s2 := { s1 with retry_attemp := if s1.retry_max ≠ 0 then some 0 else none }
    let eff := [Effect.logDebug "[CONNECTION] Connecting to Mopidy Sever",
                Effect.wsConnect s2.ws_url]
    if wait_secs = 0 then (s2, eff, none)
    else (s2, eff, some opened_during_wait)

/-- `SimpleClient._server_request` (lines 178-190): build a
`RequestMessage`, append it to `request_queue`, then try to send and wait.
`send_ok` is the environment: whether `self.wsa.send` succeeds (it raises
when there is no open connection, e.g. `wsa` is None or the socket is
closed).  `wait_result` is the value `request.wait_for_result()` returns
when it returns (`none` when it raises).  On any exception the source logs
it and returns None — and the appended request stays in the queue. -/
def server_request (s : ClientState) (method : String) (send_ok : Bool)
    (wait_result : Option Value) : ClientState × List Effect × Option Value :=
  let req : Request := ⟨s.next_id, method⟩
  let s1 := { s with request_queue := s.request_queue ++ [req],
                     next_id := s.next_id + 1 }
  if send_ok then
    match wait_result with
    | some v => (s1, [Effect.sendFrame method req.id_msg], some v)
    | none => (s1, [Effect.sendFrame method req.id_msg,
                    Effect.logException "wait_for_result raised"], none)
  else
    (s1, [Effect.logException "send raised"], none)

/-- The loop of `SimpleClient._handle_result` (lines 206-210): scan the
queue for the first request whose `id_msg` matches; return it with the
queue it was removed from, or `none` when no entry matches. -/
def remove_first_by_id : List Request → Nat → Option (Request × List Request)
  | [], _ => none
  | r :: rs, i =>
    if r.id_msg = i then some (r, rs)
    else
      match remove_first_by_id rs i with
      | some (q, rest) => some (q, r :: rest)
      | none => none

/-- `SimpleClient._handle_result` (lines 205-211): resolve the first
matching pending request (invoke its callback, remove it); warn if no
pending request has the received id. -/
def handle_result (s : ClientState) (id_msg : Nat) (result : Value) :
    ClientState × List Effect :=
  match remove_first_by_id s.request_queue id_msg with
  | some (r, rest) =>
    ({ s with request_queue := rest }, [Effect.callback r.id_msg result])
  | none =>
    (s, [Effect.logWarning "Recieved message does not match any request"])

/-- `SimpleClient._handle_error` (lines 213-218): forwards the error
payload to the globally registered error handler if any, else does
nothing (the TODO branch).  The `id_msg` of the failed call is ignored
and `request_queue` is never consulted. -/
def handle_error (s : ClientState) (id_msg : Nat) (error : Value) :
    ClientState × List Effect :=
  if s.error_handler then (s, [Effect.errorHandler error]) else (s, [])

/-- `SimpleClient._handle_event` (lines 220-222): forwards the event to the
registered event handler if any. -/
def handle_event (s : ClientState) (event : String) : ClientState × List Effect :=
  if s.event_handler then (s, [Effect.eventHandler event]) else (s, [])

/-- A successfully decoded inbound frame, one of the three shapes the
handlers registered via `ResponseMessage.set_handlers` receive. -/
inductive DecodedMsg where
  | result (id_msg : Nat) (value : Value)
  | error (id_msg : Nat) (value : Value)
  | event (name : String)
deriving DecidableEq, Repr

/-- Modelled from the spec: `ResponseMessage.parse_json_message` lives in
the missing `messages` module; per spec section 4.1 it classifies a frame
as Result, Error or Event and hands it to the corresponding handler that
`SimpleClient.__init__` registered (`_handle_result`, `_handle_error`,
`_handle_event`). -/
def dispatch_msg (s : ClientState) : DecodedMsg → ClientState × List Effect
  | .result i v => handle_result s i v
  | .error i v => handle_error s i v
  | .event n => handle_event s n

/-- `SimpleClient._server_response` (lines 192-196): the per-message
receive handler.  `parsed` is the outcome of decoding the raw message
(`Except.error` when `parse_json_message` raises); the source wraps the
whole parse-and-dispatch in try/except and logs any exception, so the
handler always returns normally. -/
def server_response (s : ClientState) (parsed : Except String DecodedMsg) :
    ClientState × List Effect :=
  match parsed with
  | .ok m => dispatch_msg s m
  | .error e => (s, [Effect.logException e])

/-- The receive loop of one open connection: `_server_response` applied to
each delivered message in transport order. -/
def receive_loop (s : ClientState) : List (Except String DecodedMsg) →
    ClientState × List Effect
  | [] => (s, [])
  | f :: fs =>
    let (s1, e1) := server_response s f
    let (s2, e2) := receive_loop s1 fs
    (s2, e1 ++ e2)

/-- The close/retry cascade under an environment in which every connection
attempt fails: each `_ws_close` that schedules a reconnect (`_ws_connect`
appears among its effects) produces a socket whose `run_forever` ends in
another `on_close`, handled by the next `_ws_close`.  `fuel` bounds the
number of close events considered. -/
def close_cascade (fuel : Nat) (s : ClientState) : ClientState × List Effect :=
  match fuel with
  | 0 => (s, [])
  | fuel + 1 =>
    let (s1, e1) := ws_close s
    if e1.any Effect.isWsConnect then
      let (s2, e2) := close_cascade fuel s1
      (s2, e1 ++ e2)
    else (s1, e1)

/-- Two `SimpleClient` instances and the class-level `request_queue` they
share.  In the source `request_queue = []` (client.py line 18) is evaluated
once at class-definition time; no method ever assigns
`self.request_queue`, they only call `append` (line 181) and `remove`
(line 209) on it, so attribute lookup on every instance resolves to the
same one list object.  Only the fields relevant to call registration are
carried per instance. -/
structure TwoClients where
  request_queue : List Request
  next_id1 : Nat
  next_id2 : Nat
deriving DecidableEq, Repr

/-- The registration step of `_server_request` (line 181,
`self.request_queue.append(request)`) executed by the first or the second
instance: both mutate the single class-level list. -/
def register_request (w : TwoClients) (on_first : Bool) (method : String) :
    TwoClients :=
  if on_first then
    { w with request_queue := w.request_queue ++ [⟨w.next_id1, method⟩],
             next_id1 := w.next_id1 + 1 }
  else
    { w with request_queue := w.request_queue ++ [⟨w.next_id2, method⟩],
             next_id2 := w.next_id2 + 1 }

/-- The pending-call table as observed by one of the two instances
(`self.request_queue`): attribute lookup finds the class attribute. -/
def queue_seen_by (w : TwoClients) (on_first : Bool) : List Request :=
  w.request_queue

/-- The effects a trace emits strictly after its last `_ws_connect`
effect (the handling of the final reconnect attempt); the whole trace when
it contains none. -/
def after_last_connect (tr : List Effect) : List Effect :=
  (tr.reverse.takeWhile (fun e => e.isWsConnect = false)).reverse

/-! ## Concrete states used by witnesses and counterexamples -/

/-- A freshly constructed client with the constructor defaults
(`retry_max = -1`, `retry_secs = 10`), a registered connection handler and
event handler, no error handler, not yet connected. -/
def s0 : ClientState :=
  { request_queue := []
    connected := false
    ws_url := "ws://localhost:6680/mopidy/ws"
    retry_max := -1
    retry_secs := 10
    retry_attemp := some 0
    connection_handler := true
    error_handler := false
    event_handler := true
    next_id := 1 }

/-- A connected client. -/
def s10c : ClientState := { s0 with connected := true }

/-- A client that reconnected once already: `retry_attemp = 1`. -/
def s7c : ClientState := { s0 with retry_attemp := some 1 }

/-- A connected client with a bounded retry policy (`retry_max = 2`). -/
def s5c : ClientState := { s0 with connected := true, retry_max := 2 }

/-- A client with one pending call (id 1). -/
def s9c : ClientState := { s0 with request_queue := [⟨1, "core.get_version"⟩] }

/-- A connected client with `retry_max = 2` and one pending call, about to
lose its transport. -/
def s6c : ClientState :=
  { s0 with connected := true, retry_max := 2,
            request_queue := [⟨7, "core.get_version"⟩] }

/-! ## Claim theorems -/

/-- Claim C1: the spec requires that handling a transport close resolves
every pending call with a ConnectionLost failure and leaves the table
empty.  The code does neither: `_ws_close` never reads or writes
`request_queue`, so the queue after the close equals the queue before it
(in particular it is not emptied), and no `callback` effect — no
resolution of any pending call — is ever emitted by the close handling. -/
theorem c1_ws_close_never_fails_pending (s : ClientState) :
    ((ws_close s).1.request_queue = s.request_queue)
    ∧ (∀ e ∈ (ws_close s).2, e.isCallback = false) := by
  rcases ha : s.retry_attemp with _ | a <;>
    rcases hc : s.connected with _ | _ <;>
      by_cases hh : s.connection_handler <;>
        simp [ws_close, ws_retry, connection_changed, is_connected,
              ha, hc, hh, Effect.isCallback] <;>
        split_ifs <;>
          simp [Effect.isCallback]

/-- Claim C2: the spec requires a peer error answer for a call to resolve
that pending call and surface the error to that specific caller.  The
code does neither: `_handle_error` ignores the message id, leaves the
state (in particular `request_queue`) unchanged, emits no `callback`
effect to any waiter, and either forwards the payload to the single
global error handler or silently drops it. -/
theorem c2_handle_error_ignores_pending (s : ClientState) (i : Nat) (err : Value) :
    ((handle_error s i err).1 = s)
    ∧ ((handle_error s i err).2
        = if s.error_handler then [Effect.errorHandler err] else [])
    ∧ (∀ e ∈ (handle_error s i err).2, e.isCallback = false) := by
  by_cases he : s.error_handler <;>
    simp [handle_error, he, Effect.isCallback]

/-- Claim C3: the spec requires a synchronously failing send to fail the
call with NotConnected and leave no registration behind.  The code
appends the request to `request_queue` before sending, catches the send
exception, returns None, and leaves the registration in the queue. -/
theorem c3_failed_send_leaks_registration (s : ClientState) (m : String)
    (w : Option Value) :
    ((server_request s m false w).2.2 = none)
    ∧ ((server_request s m false w).1.request_queue
        = s.request_queue ++ [⟨s.next_id, m⟩]) := by
  simp [server_request]

/-- Claim C4: the spec requires the call-tracking container to be
per-instance state.  In the code it is the class-level list
`SimpleClient.request_queue`: registering a call on one instance appends
to the very list the other instance observes, so the other instance's
pending-call table does change. -/
theorem c4_queue_shared_across_instances (w : TwoClients) (m : String) :
    (queue_seen_by (register_request w true m) false
      = queue_seen_by w false ++ [⟨w.next_id1, m⟩])
    ∧ (queue_seen_by (register_request w true m) false ≠ queue_seen_by w false)
    ∧ (queue_seen_by (register_request w false m) true
      = queue_seen_by w true ++ [⟨w.next_id2, m⟩]) := by
  refine ⟨by simp [register_request, queue_seen_by], ?_,
          by simp [register_request, queue_seen_by]⟩
  intro h
  simpa [register_request, queue_seen_by] using congrArg List.length h

/-- Claim C8: a frame that fails to decode is logged and dropped by
`_server_response` — the handler returns normally with the state
unchanged, and the receive loop processes the remaining frames exactly as
it would have without the malformed one. -/
theorem c8_malformed_frame_is_dropped (s : ClientState) (e : String)
    (rest : List (Except String DecodedMsg)) :
    (server_response s (Except.error e) = (s, [Effect.logException e]))
    ∧ (receive_loop s (Except.error e :: rest)
        = ((receive_loop s rest).1,
           Effect.logException e :: (receive_loop s rest).2)) := by
  exact ⟨rfl, by simp [receive_loop, server_response]⟩

/-- No request in `l` has identifier `i` exactly when the removal scan of
`_handle_result` finds nothing. -/
lemma remove_first_none_of_no_match (l : List Request) (i : Nat)
    (h : ∀ r ∈ l, r.id_msg ≠ i) : remove_first_by_id l i = none := by
  induction l with
  | nil => rfl
  | cons r rs ih =>
    have hr : r.id_msg ≠ i := h r (List.mem_cons_self r rs)
    have hrs : ∀ q ∈ rs, q.id_msg ≠ i := fun q hq => h q (List.mem_cons_of_mem r hq)
    simp [remove_first_by_id, hr, ih hrs]

/-- Claim C9: a result frame whose id matches no pending call is handled
by logging a warning and nothing else — the state, and with it the
pending-call table and every other pending call, is returned unchanged. -/
theorem c9_unmatched_result_is_noop (s : ClientState) (i : Nat) (v : Value)
    (h : ∀ r ∈ s.request_queue, r.id_msg ≠ i) :
    handle_result s i v
      = (s, [Effect.logWarning "Recieved message does not match any request"]) := by
  unfold handle_result
  rw [remove_first_none_of_no_match _ _ h]

/-- Witness for C9 at a concrete input: one pending call with id 1, a
result frame for id 2. -/
theorem c9_unmatched_result_is_noop_w :
    handle_result s9c 2 "2.0"
      = (s9c, [Effect.logWarning "Recieved message does not match any request"]) :=
  c9_unmatched_result_is_noop s9c 2 "2.0" (by decide)

/-- Claim C10: `connect` called on an already connected client warns and
returns True immediately: the state is returned untouched (same queue,
same `ws_url` even though a url argument was supplied, same retry
counter) and no `_ws_connect` — no new transport or thread — happens. -/
theorem c10_connect_when_connected_is_noop (s : ClientState)
    (url : Option String) (w : Nat) (o : Bool) (h : s.connected = true) :
    ((connect s url w o).1 = s)
    ∧ ((connect s url w o).2.2 = some true)
    ∧ (∀ e ∈ (connect s url w o).2.1, e.isWsConnect = false) := by
  simp [connect, is_connected, h, Effect.isWsConnect]

/-- Witness for C10 at a concrete input: a connected client, a fresh url
argument and a nonzero wait. -/
theorem c10_connect_when_connected_is_noop_w :
    ((connect s10c (some "ws://other:6680/mopidy/ws") 5 false).1 = s10c)
    ∧ ((connect s10c (some "ws://other:6680/mopidy/ws") 5 false).2.2 = some true)
    ∧ (∀ e ∈ (connect s10c (some "ws://other:6680/mopidy/ws") 5 false).2.1,
        e.isWsConnect = false) :=
  c10_connect_when_connected_is_noop s10c (some "ws://other:6680/mopidy/ws") 5 false rfl

/-- Claim C5: after a caller-initiated `disconnect`, the subsequent
transport close triggers no reconnect attempt (disconnect cleared
`retry_attemp`); an unexpected close while `retry_attemp` is set with
attempts remaining (unbounded policy or counter below the bound) does
schedule a reconnect. -/
theorem c5_disconnect_vs_unexpected_close (s : ClientState) (a : Int) :
    ((ws_close (disconnect s).1).2.any Effect.isWsConnect = false)
    ∧ (s.retry_attemp = some a → (s.retry_max < 0 ∨ a < s.retry_max) →
        (ws_close s).2.any Effect.isWsConnect = true) := by
  constructor
  · have h1 : (disconnect s).1 = { s with retry_attemp := none } := by
      by_cases h : s.connected <;> simp [disconnect, is_connected, h]
    rw [h1]
    by_cases hc : s.connected <;>
      by_cases hh : s.connection_handler <;>
        simp [ws_close, connection_changed, is_connected, hc, hh,
              Effect.isWsConnect]
  · intro ha hrem
    by_cases hc : s.connected <;>
      by_cases hh : s.connection_handler <;>
        by_cases hneg : s.retry_max < 0 <;>
          [skip; (replace hrem : a < s.retry_max := hrem.resolve_left hneg);
           skip; (replace hrem : a < s.retry_max := hrem.resolve_left hneg);
           skip; (replace hrem : a < s.retry_max := hrem.resolve_left hneg);
           skip; (replace hrem : a < s.retry_max := hrem.resolve_left hneg)] <;>
        simp [ws_close, ws_retry, connection_changed, is_connected,
              hc, hh, ha, hneg, hrem, Effect.isWsConnect]

/-- Witness for C5 at a concrete input: a connected client with
`retry_max = 2` and counter 0; disconnect-then-close schedules nothing,
an unexpected close does. -/
theorem c5_disconnect_vs_unexpected_close_w :
    ((ws_close (disconnect s5c).1).2.any Effect.isWsConnect = false)
    ∧ ((ws_close s5c).2.any Effect.isWsConnect = true) :=
  ⟨(c5_disconnect_vs_unexpected_close s5c 0).1,
   (c5_disconnect_vs_unexpected_close s5c 0).2 rfl (Or.inr (by decide))⟩

/-- Counterexample for C7: a successful transport open does not reset the
retry counter.  A client whose counter is 1 still has counter 1 after
`_ws_open`, not 0 as the claim states. -/
theorem c7_open_does_not_reset_cex :
    ¬ ((ws_open s7c).1.retry_attemp = some 0) := by
  decide

/-- Claim C7 (amended): the retry counter is reset to zero whenever a
fresh `connect` is requested by the caller while disconnected (given a
nonzero `retry_max`; with `retry_max = 0` it is set to None instead), but
NOT on a successful open: `_ws_open` leaves the counter exactly as it
was, so after a successful reconnect a later unexpected close continues
from the current attempt count rather than from zero. -/
theorem c7_reset_only_on_connect (s : ClientState) (url : Option String)
    (w : Nat) (o : Bool) (hc : s.connected = false) (hm : s.retry_max ≠ 0) :
    ((connect s url w o).1.retry_attemp = some 0)
    ∧ ((ws_open s).1.retry_attemp = s.retry_attemp) := by
  constructor
  · rcases url with _ | u <;>
      by_cases hw : w = 0 <;>
        simp [connect, is_connected, hc, hm, hw]
  · simp [ws_open, connection_changed]

/-- Witness for C7 at a concrete input: a disconnected client with the
default unbounded retry policy. -/
theorem c7_reset_only_on_connect_w :
    ((connect s0 none 0 false).1.retry_attemp = some 0)
    ∧ ((ws_open s0).1.retry_attemp = s0.retry_attemp) :=
  c7_reset_only_on_connect s0 none 0 false rfl (by decide)

/-- Behaviour of the close cascade from a disconnected state with a
bounded retry policy: with `retry_max = n`, counter `a ≤ n` and every
connection attempt failing, exactly `n - a` further delayed reconnect
attempts are made, the cascade ends in the maximum-retries warning, the
connection handler is never invoked again, and the pending-call queue is
untouched. -/
lemma close_cascade_disconnected (n : Nat) :
    ∀ (fuel a : Nat) (s : ClientState),
      s.connected = false →
      s.retry_max = (n : Int) →
      s.retry_attemp = some (a : Int) →
      a ≤ n →
      n - a < fuel →
      (((close_cascade fuel s).2.filter Effect.isWsConnect).length = n - a)
      ∧ (((close_cascade fuel s).2.filter Effect.isSleep).length = n - a)
      ∧ ((close_cascade fuel s).2.filter Effect.isConnHandler = [])
      ∧ (Effect.logWarning "[CONNECTION] Reached maximum of attemps to reconnect"
          ∈ (close_cascade fuel s).2)
      ∧ ((close_cascade fuel s).1.request_queue = s.request_queue) := by
  intro fuel
  induction fuel with
  | zero => intro a s _ _ _ _ hf; omega
  | succ fuel ih =>
    intro a s hc hm ha hle hf
    have hnn : ¬ ((n : Int) < 0) := by omega
    by_cases han : a < n
    · have hlt : ((a : Int) < (n : Int)) := by exact_mod_cast han
      have hstep : ws_close s
          = ({ s with retry_attemp := some ((a : Int) + 1) },
             [Effect.sleep s.retry_secs,
              Effect.logDebug "[CONNECTION] Reconnecting to Mopidy Sever. Attemp",
              Effect.wsConnect s.ws_url]) := by
        simp [ws_close, ws_retry, is_connected, hc, hm, ha, hnn, hlt]
      have hcast : ((a : Int) + 1) = ((a + 1 : Nat) : Int) := by omega
      have ihres := ih (a + 1) { s with retry_attemp := some ((a : Int) + 1) }
        hc hm (congrArg some hcast) (by omega) (by omega)
      simp only [close_cascade, hstep]
      simp only [List.any_cons, List.any_nil, Effect.isWsConnect,
                 Bool.or_true, if_true, Bool.false_or, Bool.or_false]
      rcases ihres with ⟨ih1, ih2, ih3, ih4, ih5⟩
      refine ⟨?_, ?_, ?_, ?_, ?_⟩
      · simp only [List.filter_append, List.length_append, ih1]
        simp [Effect.isWsConnect, Effect.isSleep]
        omega
      · simp only [List.filter_append, List.length_append, ih2]
        simp [Effect.isWsConnect, Effect.isSleep]
        omega
      · simp only [List.filter_append, ih3]
        simp [Effect.isConnHandler]
      · simp only [List.mem_append]
        exact Or.inr ih4
      · simpa using ih5
    · have hae : a = n := by omega
      have hnlt : ¬ ((a : Int) < (n : Int)) := by
        simp only [Int.ofNat_lt]
        omega
      have hstep : ws_close s
          = (s, [Effect.logWarning
                  "[CONNECTION] Reached maximum of attemps to reconnect"]) := by
        simp [ws_close, ws_retry, is_connected, hc, hm, ha, hnn, hnlt]
      simp only [close_cascade, hstep]
      simp [Effect.isWsConnect, Effect.isSleep, Effect.isConnHandler, hae]

/-- Claim C6 (amended): with `retry_max = n ≥ 0`, counter freshly 0, a
registered connection-status handler, and every connect attempt failing,
the close of the live connection leads to exactly `n` delayed reconnect
attempts and then stops; the terminal retries-exhausted condition is only
logged as a warning — the connection-status handler is invoked exactly
once, with False, at the initial disconnect, and never again at
exhaustion (and nothing is raised into any blocked call: close handling
emits no callback, see C1). -/
theorem c6_bounded_retries (n fuel : Nat) (s : ClientState)
    (hc : s.connected = true) (hh : s.connection_handler = true)
    (hm : s.retry_max = (n : Int)) (ha : s.retry_attemp = some 0)
    (hf : n < fuel) :
    (((close_cascade fuel s).2.filter Effect.isWsConnect).length = n)
    ∧ (((close_cascade fuel s).2.filter Effect.isSleep).length = n)
    ∧ ((close_cascade fuel s).2.filter Effect.isConnHandler
        = [Effect.connHandler false])
    ∧ (Effect.logWarning "[CONNECTION] Reached maximum of attemps to reconnect"
        ∈ (close_cascade fuel s).2) := by
  obtain ⟨f, rfl⟩ : ∃ f, fuel = f + 1 := ⟨fuel - 1, by omega⟩
  have hnn : ¬ ((n : Int) < 0) := by omega
  by_cases hn0 : n = 0
  · subst hn0
    have hstep : ws_close s
        = ({ s with connected := false },
           [Effect.logInfo "[CONNECTION] Mopidy Sever is disconnected",
            Effect.connHandler false,
            Effect.logWarning "[CONNECTION] Reached maximum of attemps to reconnect"]) := by
      simp [ws_close, ws_retry, connection_changed, is_connected,
            hc, hh, hm, ha, hnn]
    simp only [close_cascade, hstep]
    simp [Effect.isWsConnect, Effect.isSleep, Effect.isConnHandler]
  · have hlt : ((0 : Int) < (n : Int)) := by omega
    have hstep : ws_close s
        = ({ s with connected := false, retry_attemp := some 1 },
           [Effect.logInfo "[CONNECTION] Mopidy Sever is disconnected",
            Effect.connHandler false,
            Effect.sleep s.retry_secs,
            Effect.logDebug "[CONNECTION] Reconnecting to Mopidy Sever. Attemp",
            Effect.wsConnect s.ws_url]) := by
      simp [ws_close, ws_retry, connection_changed, is_connected,
            hc, hh, hm, ha, hnn, hlt]
    have ihres := close_cascade_disconnected n f 1
      { s with connected := false, retry_attemp := some 1 }
      rfl hm (by norm_num) (by omega) (by omega)
    rcases ihres with ⟨ih1, ih2, ih3, ih4, _⟩
    simp only [close_cascade, hstep]
    simp only [List.any_cons, List.any_nil, Effect.isWsConnect,
               Bool.or_true, if_true, Bool.false_or, Bool.or_false]
    refine ⟨?_, ?_, ?_, ?_⟩
    · simp only [List.filter_append, List.length_append, ih1]
      simp [Effect.isWsConnect]
      omega
    · simp only [List.filter_append, List.length_append, ih2]
      simp [Effect.isSleep]
      omega
    · simp only [List.filter_append, ih3]
      simp [Effect.isConnHandler]
    · simp only [List.mem_append]
      exact Or.inr ih4

/-- Witness for C6 at the concrete scenario from the spec: `retry_max = 2`,
connected, counter 0, every attempt failing. -/
theorem c6_bounded_retries_w :
    (((close_cascade 10 s6c).2.filter Effect.isWsConnect).length = 2)
    ∧ (((close_cascade 10 s6c).2.filter Effect.isSleep).length = 2)
    ∧ ((close_cascade 10 s6c).2.filter Effect.isConnHandler
        = [Effect.connHandler false])
    ∧ (Effect.logWarning "[CONNECTION] Reached maximum of attemps to reconnect"
        ∈ (close_cascade 10 s6c).2) :=
  c6_bounded_retries 2 10 s6c rfl rfl (by decide) (by decide) (by decide)

/-- Counterexample for C6 as stated: in the `retry_max = 2` scenario with a
registered connection-status handler, the effects emitted after the final
reconnect attempt — where the retries-exhausted condition is detected —
contain no connection-status handler invocation; the terminal condition is
not reported through the callback (only a warning is logged). -/
theorem c6_no_terminal_callback_cex :
    ¬ ((after_last_connect ((close_cascade 10 s6c).2)).any
         Effect.isConnHandler = true) := by
  decide
